import Mathlib

/-!
Shallow embedding of `src/collider/collider.py`: a 2D gas of circular
particles with elastic collisions, axis-aligned walls, a thermostat step,
and an irreversible chemical reaction rule.

Machine floats are modelled by exact reals.  Note that in Lean `x / 0 = 0`,
while the source (NumPy floats) would produce NaN on a division by a zero
center distance; the spots where this matters are commented.
-/

structure Color where
  fill : String
  outline : String
deriving DecidableEq

/-- `Molecule` dataclass: name, reaction partner (None = terminal species),
activation energy, color, radius, optional explicit mass. -/
structure Molecule where
  name : String
  reaction_partner : Option String
  activation_energy : ℝ
  color : Color
  radius : ℝ
  mass : Option ℝ

def oxygen : Molecule :=
  { name := "oxygen", reaction_partner := some "nitrogen", activation_energy := 200
    color := { fill := "#fdd835", outline := "#ff8f00" }, radius := 16, mass := none }

def nitrogen : Molecule :=
  { name := "nitrogen", reaction_partner := some "oxygen", activation_energy := 200
    color := { fill := "#1e88e5", outline := "#0d47a1" }, radius := 14, mass := none }

def nitric_oxide : Molecule :=
  { name := "NO", reaction_partner := none, activation_energy := 0
    color := { fill := "#1abc9c", outline := "#148f77" }, radius := 22, mass := none }

/-- One sphere.  The Python classes `Sphere` and `ChemicalSphere` are merged
into a single structure; `atom = none` models a plain `Sphere`, and
`atom = some m` models a `ChemicalSphere` (the `isinstance` dispatch is then
a match on this field). -/
@[ext]
structure Sphere where
  x : ℝ
  y : ℝ
  vx : ℝ
  vy : ℝ
  radius : ℝ
  color : Color
  mass : ℝ
  gravity : ℝ
  atom : Option Molecule

/-- `Sphere.__init__`: mass defaults to `radius ** 2` when not given. -/
def Sphere.init (x y vx vy radius : ℝ) (color : Color) (mass : Option ℝ)
    (gravity : ℝ) : Sphere :=
  { x := x, y := y, vx := vx, vy := vy, radius := radius, color := color
    mass := match mass with | none => radius ^ 2 | some m => m
    gravity := gravity, atom := none }

/-- `ChemicalSphere.__init__`: radius, color and mass come from the molecule. -/
def ChemicalSphere.init (x y vx vy : ℝ) (atom : Molecule) (gravity : ℝ) : Sphere :=
  { Sphere.init x y vx vy atom.radius atom.color atom.mass gravity with
    atom := some atom }

/-- `Sphere.move`: gravity is added to `vy` first, then the position is
translated by the (updated) velocity. -/
def Sphere.move (s : Sphere) : Sphere :=
  { s with vy := s.vy + s.gravity, x := s.x + s.vx, y := s.y + (s.vy + s.gravity) }

/-- `Sphere.check_sphere_collision`: the elastic branch.  Both spheres are
mutated in the source; here the updated pair `(self, other)` is returned. -/
noncomputable def Sphere.check_sphere_collision (self other : Sphere) :
    Sphere × Sphere :=
  let dx := self.x - other.x
  let dy := self.y - other.y
  let distance := Real.sqrt (dx ^ 2 + dy ^ 2)
  if distance < self.radius + other.radius then
    let nx := dx / distance
    let ny := dy / distance
    let p := 2 * (self.vx * nx + self.vy * ny - other.vx * nx - other.vy * ny) /
      (self.mass + other.mass)
    let self1 := { self with
      vx := self.vx - p * other.mass * nx
      vy := self.vy - p * other.mass * ny }
    let other1 := { other with
      vx := other.vx + p * self.mass * nx
      vy := other.vy + p * self.mass * ny }
    let overlap := 0.5 * (self.radius + other.radius - distance + 1)
    ({ self1 with x := self1.x + overlap * nx, y := self1.y + overlap * ny },
     { other1 with x := other1.x - overlap * nx, y := other1.y - overlap * ny })
  else
    (self, other)

/-- NumPy's `arctan2(y, x)` on exact reals (in particular `arctan2 0 0 = 0`). -/
noncomputable def arctan2 (y x : ℝ) : ℝ :=
  if 0 < x then Real.arctan (y / x)
  else if x < 0 then
    if 0 ≤ y then Real.arctan (y / x) + Real.pi else Real.arctan (y / x) - Real.pi
  else
    if 0 < y then Real.pi / 2
    else if y < 0 then -(Real.pi / 2)
    else 0

/-- `Sphere.equilibriate_temperature`: nudge the speed toward the thermal
equilibrium speed, keeping the velocity's polar angle. -/
noncomputable def Sphere.equilibriate_temperature (self : Sphere)
    (temperature : ℝ) : Sphere :=
  let kb : ℝ := 1
  let v_equilibrium := Real.sqrt (2 * kb * temperature / self.mass)
  let alpha : ℝ := 0.01
  let direction := arctan2 self.vy self.vx
  { self with
    vx := alpha * v_equilibrium * Real.cos direction + self.vx * (1 - alpha)
    vy := alpha * v_equilibrium * Real.sin direction + self.vy * (1 - alpha) }

open Classical in
/-- `ChemicalSphere.check_sphere_collision`: either delegate to the elastic
branch, or (mutual partners, enough kinetic energy, overlapping) react:
`self` becomes the product `nitric_oxide` at the pair midpoint with halved
velocity and recomputed radius/mass, and `other` is banished to the sentinel
position `(-1000, -1000)`. -/
noncomputable def ChemicalSphere.check_sphere_collision (self other : Sphere) :
    Sphere × Sphere :=
  match self.atom, other.atom with
  | some atom, some oatom =>
    if atom = oatom ∨ ¬atom.reaction_partner = some oatom.name then
      Sphere.check_sphere_collision self other
    else
      let self_kinetic_energy := 0.5 * self.mass * (self.vx ^ 2 + self.vy ^ 2)
      let other_kinetic_energy := 0.5 * other.mass * (other.vx ^ 2 + other.vy ^ 2)
      let total_kinetic_energy := self_kinetic_energy + other_kinetic_energy
      if total_kinetic_energy < atom.activation_energy then
        Sphere.check_sphere_collision self other
      else
        let dx := self.x - other.x
        let dy := self.y - other.y
        let distance := Real.sqrt (dx ^ 2 + dy ^ 2)
        if distance < self.radius + other.radius then
          let product := nitric_oxide
          ({ self with
              atom := some product
              x := (self.x + other.x) / 2
              y := (self.y + other.y) / 2
              vx := self.vx / 2
              vy := self.vy / 2
              radius := product.radius
              color := product.color
              mass := match product.mass with
                | none => product.radius ^ 2
                | some m => m },
           { other with x := -1000, y := -1000 })
        else
          (self, other)
  | _, _ => Sphere.check_sphere_collision self other

/-- `Wall`: stored as four raw endpoint coordinates; the constructor performs
no axis-alignment validation, exactly as in the source. -/
structure Wall where
  x1 : ℝ
  y1 : ℝ
  x2 : ℝ
  y2 : ℝ

/-- `Wall.check_collision`: reflect the perpendicular velocity component when
the sphere's extent overlaps the wall line, the center is strictly between the
endpoints, and the sphere is moving toward the wall from its current side. -/
noncomputable def Wall.check_collision (w : Wall) (s : Sphere) : Sphere :=
  if w.x1 = w.x2 then
    if w.x1 - s.radius < s.x ∧ s.x < w.x1 + s.radius then
      if (w.y1 < s.y ∧ s.y < w.y2) ∨ (w.y2 < s.y ∧ s.y < w.y1) then
        if s.x < w.x1 ∧ 0 < s.vx then { s with vx := -s.vx }
        else if w.x1 < s.x ∧ s.vx < 0 then { s with vx := -s.vx }
        else s
      else s
    else s
  else if w.y1 = w.y2 then
    if w.y1 - s.radius < s.y ∧ s.y < w.y1 + s.radius then
      if (w.x1 < s.x ∧ s.x < w.x2) ∨ (w.x2 < s.x ∧ s.x < w.x1) then
        if s.y < w.y1 ∧ 0 < s.vy then { s with vy := -s.vy }
        else if w.y1 < s.y ∧ s.vy < 0 then { s with vy := -s.vy }
        else s
      else s
    else s
  else s

/-- The out-of-bounds test of `Simulation.update`'s end-of-tick cull. -/
def out_of_bounds (width height : ℝ) (sp : Sphere) : Prop :=
  |sp.x| > width * 2 ∨ |sp.y| > height * 2

open Classical in
/-- The end-of-tick cull of `Simulation.update`: keep only the spheres that
are not out of bounds. -/
noncomputable def cull_out_of_bounds (width height : ℝ)
    (spheres : List Sphere) : List Sphere :=
  spheres.filter fun sp => decide (¬out_of_bounds width height sp)

/-! ### Derived quantities (named subexpressions of the source formulas) -/

/-- Center distance `d = sqrt(dx² + dy²)` between two spheres. -/
noncomputable def center_distance (a b : Sphere) : ℝ :=
  Real.sqrt ((a.x - b.x) ^ 2 + (a.y - b.y) ^ 2)

/-- `nx = dx / d`, the x component of the collision unit normal. -/
noncomputable def normal_x (a b : Sphere) : ℝ :=
  (a.x - b.x) / center_distance a b

/-- `ny = dy / d`, the y component of the collision unit normal. -/
noncomputable def normal_y (a b : Sphere) : ℝ :=
  (a.y - b.y) / center_distance a b

/-- The elastic impulse scalar `p = 2·((v_a − v_b)·n) / (mass_a + mass_b)`. -/
noncomputable def impulse (a b : Sphere) : ℝ :=
  2 * ((a.vx - b.vx) * normal_x a b + (a.vy - b.vy) * normal_y a b) /
    (a.mass + b.mass)

/-- Half the overlap plus one unit of slack: `0.5·(r_a + r_b − d + 1)`. -/
noncomputable def separation_overlap (a b : Sphere) : ℝ :=
  0.5 * (a.radius + b.radius - center_distance a b + 1)

/-- Total kinetic energy `½·m_a·|v_a|² + ½·m_b·|v_b|²` of a pair. -/
def total_kinetic_energy (a b : Sphere) : ℝ :=
  0.5 * a.mass * (a.vx ^ 2 + a.vy ^ 2) + 0.5 * b.mass * (b.vx ^ 2 + b.vy ^ 2)

/-! ### Helper lemmas -/

lemma sum_sq_eq_zero {x y : ℝ} (h : x ^ 2 + y ^ 2 = 0) : x = 0 ∧ y = 0 := by
  have hx : x ^ 2 = 0 := le_antisymm (by nlinarith [sq_nonneg y]) (sq_nonneg x)
  have hy : y ^ 2 = 0 := le_antisymm (by nlinarith [sq_nonneg x]) (sq_nonneg y)
  exact ⟨(pow_eq_zero_iff two_ne_zero).mp hx, (pow_eq_zero_iff two_ne_zero).mp hy⟩

lemma normal_sq_sum (a b : Sphere) (hd : 0 < center_distance a b) :
    normal_x a b ^ 2 + normal_y a b ^ 2 = 1 := by
  have hS : 0 < (a.x - b.x) ^ 2 + (a.y - b.y) ^ 2 := by
    rw [center_distance] at hd
    exact Real.sqrt_pos.mp hd
  rw [normal_x, normal_y, center_distance, div_pow, div_pow, div_add_div_same,
    Real.sq_sqrt hS.le]
  exact div_self hS.ne'

lemma arctan2_zero_zero : arctan2 0 0 = 0 := by
  unfold arctan2
  norm_num

lemma mem_cull_out_of_bounds {width height : ℝ} {sp : Sphere} {l : List Sphere} :
    sp ∈ cull_out_of_bounds width height l ↔
      sp ∈ l ∧ ¬out_of_bounds width height sp := by
  simp [cull_out_of_bounds]

/-- Equation lemma for the elastic branch on overlap: both velocities get the
impulse along the normal and both positions get the separation correction. -/
lemma elastic_overlap_eq (a b : Sphere)
    (hov : center_distance a b < a.radius + b.radius) :
    Sphere.check_sphere_collision a b =
      ({ a with
          x := a.x + separation_overlap a b * normal_x a b
          y := a.y + separation_overlap a b * normal_y a b
          vx := a.vx - impulse a b * b.mass * normal_x a b
          vy := a.vy - impulse a b * b.mass * normal_y a b },
       { b with
          x := b.x - separation_overlap a b * normal_x a b
          y := b.y - separation_overlap a b * normal_y a b
          vx := b.vx + impulse a b * a.mass * normal_x a b
          vy := b.vy + impulse a b * a.mass * normal_y a b }) := by
  have hov' : Real.sqrt ((a.x - b.x) ^ 2 + (a.y - b.y) ^ 2) <
      a.radius + b.radius := hov
  simp only [Sphere.check_sphere_collision]
  rw [if_pos hov']
  simp only [separation_overlap, normal_x, normal_y, impulse, center_distance,
    Prod.mk.injEq]
  constructor <;> ext <;> try rfl
  all_goals ring

/-- Equation lemma for the reaction branch. -/
lemma chemical_reacts (a b : Sphere) (sa ob : Molecule)
    (ha : a.atom = some sa) (hb : b.atom = some ob) (hne : sa ≠ ob)
    (hpartner : sa.reaction_partner = some ob.name)
    (hke : sa.activation_energy ≤ total_kinetic_energy a b)
    (hov : center_distance a b < a.radius + b.radius) :
    ChemicalSphere.check_sphere_collision a b =
      ({ a with
          atom := some nitric_oxide
          x := (a.x + b.x) / 2
          y := (a.y + b.y) / 2
          vx := a.vx / 2
          vy := a.vy / 2
          radius := nitric_oxide.radius
          color := nitric_oxide.color
          mass := nitric_oxide.radius ^ 2 },
       { b with x := -1000, y := -1000 }) := by
  have hguard : ¬(sa = ob ∨ ¬sa.reaction_partner = some ob.name) := by
    rintro (h | h)
    · exact hne h
    · exact h hpartner
  have hke' : ¬(0.5 * a.mass * (a.vx ^ 2 + a.vy ^ 2) +
      0.5 * b.mass * (b.vx ^ 2 + b.vy ^ 2) < sa.activation_energy) :=
    not_lt.mpr hke
  have hov' : Real.sqrt ((a.x - b.x) ^ 2 + (a.y - b.y) ^ 2) <
      a.radius + b.radius := hov
  simp only [ChemicalSphere.check_sphere_collision, ha, hb]
  rw [if_neg hguard, if_neg hke', if_pos hov']
  rfl

/-- The kinetic-energy test failing makes the chemical check delegate to the
elastic branch. -/
lemma chemical_ke_fail_eq (a b : Sphere) (sa ob : Molecule)
    (ha : a.atom = some sa) (hb : b.atom = some ob) (hne : sa ≠ ob)
    (hpartner : sa.reaction_partner = some ob.name)
    (hke : total_kinetic_energy a b < sa.activation_energy) :
    ChemicalSphere.check_sphere_collision a b =
      Sphere.check_sphere_collision a b := by
  have hguard : ¬(sa = ob ∨ ¬sa.reaction_partner = some ob.name) := by
    rintro (h | h)
    · exact hne h
    · exact h hpartner
  have hke' : 0.5 * a.mass * (a.vx ^ 2 + a.vy ^ 2) +
      0.5 * b.mass * (b.vx ^ 2 + b.vy ^ 2) < sa.activation_energy := hke
  simp only [ChemicalSphere.check_sphere_collision, ha, hb]
  rw [if_neg hguard, if_pos hke']

lemma elastic_no_overlap_eq (a b : Sphere)
    (hov : ¬center_distance a b < a.radius + b.radius) :
    Sphere.check_sphere_collision a b = (a, b) := by
  have hov' : ¬Real.sqrt ((a.x - b.x) ^ 2 + (a.y - b.y) ^ 2) <
      a.radius + b.radius := hov
  simp only [Sphere.check_sphere_collision]
  rw [if_neg hov']

lemma sqrt_eq_of_sq_eq {x c : ℝ} (h : x = c ^ 2) (hc : 0 ≤ c) :
    Real.sqrt x = c := by
  rw [h, Real.sqrt_sq hc]

lemma oxygen_ne_nitrogen : oxygen ≠ nitrogen := by
  intro h
  have hname := congrArg Molecule.name h
  simp only [oxygen, nitrogen] at hname
  exact absurd hname (by decide)

/-! ### Claims -/

/-- Claim C2: on the elastic branch (center distance `d` below the sum of the
radii), the velocity update is the 1D elastic impulse along the unit normal
`n = ((x_a − x_b)/d, (y_a − y_b)/d)`: with scalar
`p = 2·((v_a − v_b)·n)/(mass_a + mass_b)`, particle A's velocity changes by
`−p·mass_b·n` and particle B's by `+p·mass_a·n`. -/
theorem elastic_impulse_formula (a b : Sphere)
    (hov : center_distance a b < a.radius + b.radius) :
    (Sphere.check_sphere_collision a b).1.vx
        = a.vx - impulse a b * b.mass * normal_x a b
      ∧ (Sphere.check_sphere_collision a b).1.vy
        = a.vy - impulse a b * b.mass * normal_y a b
      ∧ (Sphere.check_sphere_collision a b).2.vx
        = b.vx + impulse a b * a.mass * normal_x a b
      ∧ (Sphere.check_sphere_collision a b).2.vy
        = b.vy + impulse a b * a.mass * normal_y a b := by
  rw [elastic_overlap_eq a b hov]
  exact ⟨rfl, rfl, rfl, rfl⟩

/-- Witness for C2, the spec's worked example: masses 1 and 3, pre-collision
velocities (2,0) and (0,0), unit normal (1,0); the post-collision velocities
along the normal are −1 and 1. -/
theorem elastic_impulse_formula_witness :
    (Sphere.check_sphere_collision
        (Sphere.init 1 0 2 0 1 ⟨"", ""⟩ none 0.001)
        (Sphere.init 0 0 0 0 1 ⟨"", ""⟩ (some 3) 0.001)).1.vx = -1
      ∧ (Sphere.check_sphere_collision
        (Sphere.init 1 0 2 0 1 ⟨"", ""⟩ none 0.001)
        (Sphere.init 0 0 0 0 1 ⟨"", ""⟩ (some 3) 0.001)).2.vx = 1 := by
  have hov : center_distance (Sphere.init 1 0 2 0 1 ⟨"", ""⟩ none 0.001)
      (Sphere.init 0 0 0 0 1 ⟨"", ""⟩ (some 3) 0.001) <
      (Sphere.init 1 0 2 0 1 ⟨"", ""⟩ none 0.001).radius +
        (Sphere.init 0 0 0 0 1 ⟨"", ""⟩ (some 3) 0.001).radius := by
    norm_num [center_distance, Sphere.init, Real.sqrt_one]
  have h := elastic_impulse_formula
    (Sphere.init 1 0 2 0 1 ⟨"", ""⟩ none 0.001)
    (Sphere.init 0 0 0 0 1 ⟨"", ""⟩ (some 3) 0.001) hov
  refine ⟨?_, ?_⟩
  · rw [h.1]
    norm_num [impulse, normal_x, normal_y, center_distance, Sphere.init,
      Real.sqrt_one]
  · rw [h.2.2.1]
    norm_num [impulse, normal_x, normal_y, center_distance, Sphere.init,
      Real.sqrt_one]

/-- Claim C3: an elastic-only resolution between two particles of equal mass
conserves total momentum and total kinetic energy exactly (over the exact
reals of this model). -/
theorem elastic_conserves_momentum_and_energy (a b : Sphere)
    (hm : a.mass = b.mass) :
    a.mass * (Sphere.check_sphere_collision a b).1.vx
        + b.mass * (Sphere.check_sphere_collision a b).2.vx
      = a.mass * a.vx + b.mass * b.vx
    ∧ a.mass * (Sphere.check_sphere_collision a b).1.vy
        + b.mass * (Sphere.check_sphere_collision a b).2.vy
      = a.mass * a.vy + b.mass * b.vy
    ∧ total_kinetic_energy (Sphere.check_sphere_collision a b).1
        (Sphere.check_sphere_collision a b).2
      = total_kinetic_energy a b := by
  by_cases hov : center_distance a b < a.radius + b.radius
  · rw [elastic_overlap_eq a b hov]
    dsimp only
    refine ⟨by ring, by ring, ?_⟩
    unfold total_kinetic_energy
    dsimp only
    rw [← hm]
    by_cases hd : center_distance a b = 0
    · have hnx : normal_x a b = 0 := by rw [normal_x, hd, div_zero]
      have hny : normal_y a b = 0 := by rw [normal_y, hd, div_zero]
      rw [hnx, hny]
      ring
    · have hge : (0 : ℝ) ≤ center_distance a b := Real.sqrt_nonneg _
      have hd' : 0 < center_distance a b := lt_of_le_of_ne hge (Ne.symm hd)
      have hn := normal_sq_sum a b hd'
      by_cases ha0 : a.mass = 0
      · rw [ha0]
        ring
      · have h2 : a.mass + a.mass ≠ 0 := by
          intro h
          apply ha0
          linarith
        have hP : impulse a b * a.mass
            = (a.vx - b.vx) * normal_x a b + (a.vy - b.vy) * normal_y a b := by
          rw [impulse, ← hm, div_mul_eq_mul_div, div_eq_iff h2]
          ring
        linear_combination (impulse a b ^ 2 * a.mass ^ 3) * hn
          + (a.mass ^ 2 * impulse a b) * hP
  · rw [elastic_no_overlap_eq a b hov]
    exact ⟨rfl, rfl, rfl⟩

/-- Witness for C3: two overlapping unit-radius, unit-mass particles;
kinetic energy is conserved by the resolve step. -/
theorem elastic_conserves_momentum_and_energy_witness :
    total_kinetic_energy
        (Sphere.check_sphere_collision
          (Sphere.init 1 0 2 0 1 ⟨"", ""⟩ none 0.001)
          (Sphere.init 0 0 0 0 1 ⟨"", ""⟩ none 0.001)).1
        (Sphere.check_sphere_collision
          (Sphere.init 1 0 2 0 1 ⟨"", ""⟩ none 0.001)
          (Sphere.init 0 0 0 0 1 ⟨"", ""⟩ none 0.001)).2
      = total_kinetic_energy
          (Sphere.init 1 0 2 0 1 ⟨"", ""⟩ none 0.001)
          (Sphere.init 0 0 0 0 1 ⟨"", ""⟩ none 0.001) :=
  (elastic_conserves_momentum_and_energy
    (Sphere.init 1 0 2 0 1 ⟨"", ""⟩ none 0.001)
    (Sphere.init 0 0 0 0 1 ⟨"", ""⟩ none 0.001) rfl).2.2

/-- Claim C4 (amended): whenever two distinct particles overlap, the positional
separation correction (half the overlap plus slack along the unit normal) is
applied on every elastic resolution — including when the reaction
preconditions held but the kinetic-energy test failed, where the chemical
check delegates to the elastic branch — but it is not applied on the reacting
path, which sets midpoint/sentinel positions instead. -/
theorem separation_correction_on_elastic (a b : Sphere)
    (hov : center_distance a b < a.radius + b.radius) :
    ((Sphere.check_sphere_collision a b).1.x
        = a.x + separation_overlap a b * normal_x a b
      ∧ (Sphere.check_sphere_collision a b).1.y
        = a.y + separation_overlap a b * normal_y a b
      ∧ (Sphere.check_sphere_collision a b).2.x
        = b.x - separation_overlap a b * normal_x a b
      ∧ (Sphere.check_sphere_collision a b).2.y
        = b.y - separation_overlap a b * normal_y a b)
    ∧ ∀ sa ob : Molecule, a.atom = some sa → b.atom = some ob → sa ≠ ob →
        sa.reaction_partner = some ob.name →
        total_kinetic_energy a b < sa.activation_energy →
        ChemicalSphere.check_sphere_collision a b
          = Sphere.check_sphere_collision a b := by
  constructor
  · rw [elastic_overlap_eq a b hov]
    exact ⟨rfl, rfl, rfl, rfl⟩
  · intro sa ob ha hb hne hpartner hke
    exact chemical_ke_fail_eq a b sa ob ha hb hne hpartner hke

/-- Witness for C4: a slow oxygen/nitrogen pair (mutual partners, kinetic
energy below activation) at distance 1: the chemical check delegates to the
elastic branch and the initiator is pushed to x = −15 by the separation. -/
theorem separation_correction_on_elastic_witness :
    (Sphere.check_sphere_collision
        (ChemicalSphere.init 0 0 (1/10) 0 oxygen 0.001)
        (ChemicalSphere.init 1 0 0 0 nitrogen 0.001)).1.x = -15
    ∧ ChemicalSphere.check_sphere_collision
          (ChemicalSphere.init 0 0 (1/10) 0 oxygen 0.001)
          (ChemicalSphere.init 1 0 0 0 nitrogen 0.001)
        = Sphere.check_sphere_collision
          (ChemicalSphere.init 0 0 (1/10) 0 oxygen 0.001)
          (ChemicalSphere.init 1 0 0 0 nitrogen 0.001) := by
  have hov : center_distance (ChemicalSphere.init 0 0 (1/10) 0 oxygen 0.001)
      (ChemicalSphere.init 1 0 0 0 nitrogen 0.001) <
      (ChemicalSphere.init 0 0 (1/10) 0 oxygen 0.001).radius +
        (ChemicalSphere.init 1 0 0 0 nitrogen 0.001).radius := by
    norm_num [center_distance, ChemicalSphere.init, Sphere.init, oxygen,
      nitrogen, Real.sqrt_one]
  have h := separation_correction_on_elastic
    (ChemicalSphere.init 0 0 (1/10) 0 oxygen 0.001)
    (ChemicalSphere.init 1 0 0 0 nitrogen 0.001) hov
  refine ⟨?_, ?_⟩
  · rw [h.1.1]
    norm_num [separation_overlap, normal_x, center_distance,
      ChemicalSphere.init, Sphere.init, oxygen, nitrogen, Real.sqrt_one]
  · exact h.2 oxygen nitrogen rfl rfl oxygen_ne_nitrogen rfl
      (by norm_num [total_kinetic_energy, ChemicalSphere.init, Sphere.init,
        oxygen, nitrogen])

/-- Counterexample for C4 as stated: a reacting oxygen/nitrogen pair at
distance 1.  The initiator ends at the midpoint x = 1/2, not at the
separation-corrected position x = −15, so the separation correction is not
applied on the reacting path. -/
theorem separation_not_applied_on_reaction :
    (ChemicalSphere.check_sphere_collision
        (ChemicalSphere.init 0 0 2 0 oxygen 0.001)
        (ChemicalSphere.init 1 0 0 0 nitrogen 0.001)).1.x = 1/2
    ∧ (ChemicalSphere.init 0 0 2 0 oxygen 0.001).x
        + separation_overlap (ChemicalSphere.init 0 0 2 0 oxygen 0.001)
            (ChemicalSphere.init 1 0 0 0 nitrogen 0.001)
          * normal_x (ChemicalSphere.init 0 0 2 0 oxygen 0.001)
            (ChemicalSphere.init 1 0 0 0 nitrogen 0.001) = -15
    ∧ ((1:ℝ)/2) ≠ -15 := by
  have hke : oxygen.activation_energy ≤
      total_kinetic_energy (ChemicalSphere.init 0 0 2 0 oxygen 0.001)
        (ChemicalSphere.init 1 0 0 0 nitrogen 0.001) := by
    norm_num [total_kinetic_energy, ChemicalSphere.init, Sphere.init, oxygen,
      nitrogen]
  have hov : center_distance (ChemicalSphere.init 0 0 2 0 oxygen 0.001)
      (ChemicalSphere.init 1 0 0 0 nitrogen 0.001) <
      (ChemicalSphere.init 0 0 2 0 oxygen 0.001).radius +
        (ChemicalSphere.init 1 0 0 0 nitrogen 0.001).radius := by
    norm_num [center_distance, ChemicalSphere.init, Sphere.init, oxygen,
      nitrogen, Real.sqrt_one]
  have hr := chemical_reacts (ChemicalSphere.init 0 0 2 0 oxygen 0.001)
    (ChemicalSphere.init 1 0 0 0 nitrogen 0.001) oxygen nitrogen rfl rfl
    oxygen_ne_nitrogen rfl hke hov
  refine ⟨?_, ?_, by norm_num⟩
  · rw [hr]
    norm_num [ChemicalSphere.init, Sphere.init]
  · norm_num [separation_overlap, normal_x, center_distance,
      ChemicalSphere.init, Sphere.init, oxygen, nitrogen, Real.sqrt_one]

/-- Claim C5 (amended): for a pair with nonzero overlap and non-coincident
centers, the elastic resolution leaves the centers at distance exactly
`r_a + r_b + 1` — at least the sum of the radii, with no under- or wild
over-correction. -/
theorem separation_restores_distance (a b : Sphere)
    (hd : 0 < center_distance a b)
    (hov : center_distance a b < a.radius + b.radius) :
    center_distance (Sphere.check_sphere_collision a b).1
        (Sphere.check_sphere_collision a b).2
      = a.radius + b.radius + 1 := by
  have hS : 0 < (a.x - b.x) ^ 2 + (a.y - b.y) ^ 2 := Real.sqrt_pos.mp hd
  have hdd : center_distance a b ^ 2 = (a.x - b.x) ^ 2 + (a.y - b.y) ^ 2 := by
    rw [center_distance, Real.sq_sqrt hS.le]
  have hdne : center_distance a b ≠ 0 := hd.ne'
  have hR1 : (0:ℝ) ≤ a.radius + b.radius + 1 := by linarith
  rw [elastic_overlap_eq a b hov, center_distance]
  dsimp only
  apply sqrt_eq_of_sq_eq _ hR1
  rw [separation_overlap, normal_x, normal_y]
  field_simp
  linear_combination (-(a.radius + b.radius + 1) ^ 2) * hdd

/-- Witness for C5: unit-radius spheres at centers (1,0) and (0,0): after the
elastic resolution the centers are at distance 3 = 1 + 1 + 1. -/
theorem separation_restores_distance_witness :
    center_distance
        (Sphere.check_sphere_collision
          (Sphere.init 1 0 2 0 1 ⟨"", ""⟩ none 0.001)
          (Sphere.init 0 0 0 0 1 ⟨"", ""⟩ none 0.001)).1
        (Sphere.check_sphere_collision
          (Sphere.init 1 0 2 0 1 ⟨"", ""⟩ none 0.001)
          (Sphere.init 0 0 0 0 1 ⟨"", ""⟩ none 0.001)).2
      = 3 := by
  have hd : 0 < center_distance (Sphere.init 1 0 2 0 1 ⟨"", ""⟩ none 0.001)
      (Sphere.init 0 0 0 0 1 ⟨"", ""⟩ none 0.001) := by
    norm_num [center_distance, Sphere.init, Real.sqrt_one]
  have hov : center_distance (Sphere.init 1 0 2 0 1 ⟨"", ""⟩ none 0.001)
      (Sphere.init 0 0 0 0 1 ⟨"", ""⟩ none 0.001) <
      (Sphere.init 1 0 2 0 1 ⟨"", ""⟩ none 0.001).radius +
        (Sphere.init 0 0 0 0 1 ⟨"", ""⟩ none 0.001).radius := by
    norm_num [center_distance, Sphere.init, Real.sqrt_one]
  rw [separation_restores_distance
    (Sphere.init 1 0 2 0 1 ⟨"", ""⟩ none 0.001)
    (Sphere.init 0 0 0 0 1 ⟨"", ""⟩ none 0.001) hd hov]
  norm_num [Sphere.init]

/-- Counterexample for C5 as stated: two coincident unit-radius particles
have nonzero overlap (the claim's hypothesis), yet the resolution leaves the
center distance at 0, far below the sum of the radii: with a zero center
distance the source's normal is a division by zero (NaN on floats; 0 in this
exact model), so no separation at all is produced. -/
theorem separation_fails_for_coincident_pair :
    0 < (Sphere.init 0 0 1 0 1 ⟨"", ""⟩ none 0.001).radius
          + (Sphere.init 0 0 (-1) 0 1 ⟨"", ""⟩ none 0.001).radius
          - center_distance (Sphere.init 0 0 1 0 1 ⟨"", ""⟩ none 0.001)
              (Sphere.init 0 0 (-1) 0 1 ⟨"", ""⟩ none 0.001)
    ∧ center_distance
        (Sphere.check_sphere_collision
          (Sphere.init 0 0 1 0 1 ⟨"", ""⟩ none 0.001)
          (Sphere.init 0 0 (-1) 0 1 ⟨"", ""⟩ none 0.001)).1
        (Sphere.check_sphere_collision
          (Sphere.init 0 0 1 0 1 ⟨"", ""⟩ none 0.001)
          (Sphere.init 0 0 (-1) 0 1 ⟨"", ""⟩ none 0.001)).2
      < (Sphere.init 0 0 1 0 1 ⟨"", ""⟩ none 0.001).radius
          + (Sphere.init 0 0 (-1) 0 1 ⟨"", ""⟩ none 0.001).radius - 1/2 := by
  have h0 : center_distance (Sphere.init 0 0 1 0 1 ⟨"", ""⟩ none 0.001)
      (Sphere.init 0 0 (-1) 0 1 ⟨"", ""⟩ none 0.001) = 0 := by
    norm_num [center_distance, Sphere.init, Real.sqrt_zero]
  have hov : center_distance (Sphere.init 0 0 1 0 1 ⟨"", ""⟩ none 0.001)
      (Sphere.init 0 0 (-1) 0 1 ⟨"", ""⟩ none 0.001) <
      (Sphere.init 0 0 1 0 1 ⟨"", ""⟩ none 0.001).radius +
        (Sphere.init 0 0 (-1) 0 1 ⟨"", ""⟩ none 0.001).radius := by
    rw [h0]
    norm_num [Sphere.init]
  constructor
  · rw [h0]
    norm_num [Sphere.init]
  · rw [elastic_overlap_eq _ _ hov]
    have hnx : normal_x (Sphere.init 0 0 1 0 1 ⟨"", ""⟩ none 0.001)
        (Sphere.init 0 0 (-1) 0 1 ⟨"", ""⟩ none 0.001) = 0 := by
      rw [normal_x, h0, div_zero]
    have hny : normal_y (Sphere.init 0 0 1 0 1 ⟨"", ""⟩ none 0.001)
        (Sphere.init 0 0 (-1) 0 1 ⟨"", ""⟩ none 0.001) = 0 := by
      rw [normal_y, h0, div_zero]
    rw [center_distance]
    dsimp only
    rw [hnx, hny]
    norm_num [Sphere.init, Real.sqrt_zero]

/-- Claim C6: one equilibriation step with temperature `T` replaces the
velocity `(vx, vy)` by `alpha·v_eq·(cos θ, sin θ) + (1 − alpha)·(vx, vy)`
with `v_eq = sqrt(2·T/mass)` (kB = 1), `alpha = 0.01` and
`θ = arctan2 vy vx`, leaving position, radius and mass unchanged. -/
theorem equilibriate_formula (s : Sphere) (T : ℝ) :
    (s.equilibriate_temperature T).vx
        = 0.01 * Real.sqrt (2 * T / s.mass)
            * Real.cos (arctan2 s.vy s.vx) + (1 - 0.01) * s.vx
      ∧ (s.equilibriate_temperature T).vy
        = 0.01 * Real.sqrt (2 * T / s.mass)
            * Real.sin (arctan2 s.vy s.vx) + (1 - 0.01) * s.vy
      ∧ (s.equilibriate_temperature T).x = s.x
      ∧ (s.equilibriate_temperature T).y = s.y
      ∧ (s.equilibriate_temperature T).radius = s.radius
      ∧ (s.equilibriate_temperature T).mass = s.mass := by
  simp only [Sphere.equilibriate_temperature]
  refine ⟨?_, ?_, trivial, trivial, trivial, trivial⟩
  · rw [show (2:ℝ) * 1 * T / s.mass = 2 * T / s.mass by ring]
    ring
  · rw [show (2:ℝ) * 1 * T / s.mass = 2 * T / s.mass by ring]
    ring

/-- Claim C9: a particle with velocity exactly (0,0) leaves equilibriation
with velocity `(0.01·sqrt(2·T/mass), 0)`, because `arctan2 0 0 = 0`: the
direction-preservation does not extend to the zero vector, which is pushed
in the positive-x direction. -/
theorem equilibriate_zero_velocity (s : Sphere) (T : ℝ)
    (hvx : s.vx = 0) (hvy : s.vy = 0) :
    (s.equilibriate_temperature T).vx = 0.01 * Real.sqrt (2 * T / s.mass)
      ∧ (s.equilibriate_temperature T).vy = 0 := by
  simp only [Sphere.equilibriate_temperature, hvx, hvy, arctan2_zero_zero,
    Real.cos_zero, Real.sin_zero]
  constructor
  · rw [show (2:ℝ) * 1 * T / s.mass = 2 * T / s.mass by ring]
    ring
  · ring

/-- Witness for C9: a stationary unit-mass particle at temperature 2 acquires
velocity (0.02, 0). -/
theorem equilibriate_zero_velocity_witness :
    (Sphere.equilibriate_temperature
        (Sphere.init 0 0 0 0 1 ⟨"", ""⟩ none 0.001) 2).vx = 0.02
    ∧ (Sphere.equilibriate_temperature
        (Sphere.init 0 0 0 0 1 ⟨"", ""⟩ none 0.001) 2).vy = 0 := by
  have h := equilibriate_zero_velocity
    (Sphere.init 0 0 0 0 1 ⟨"", ""⟩ none 0.001) 2 rfl rfl
  refine ⟨?_, h.2⟩
  rw [h.1]
  rw [show (2:ℝ) * 2 / (Sphere.init 0 0 0 0 1 ⟨"", ""⟩ none 0.001).mass = 4 by
    norm_num [Sphere.init]]
  rw [show (4:ℝ) = 2 ^ 2 by norm_num, Real.sqrt_sq (by norm_num : (0:ℝ) ≤ 2)]
  norm_num

/-- Claim C10: a wall with `x1 ≠ x2` and `y1 ≠ y2` (diagonal) is constructed
without any validation, and its collision check leaves every sphere
unchanged. -/
theorem diagonal_wall_check_is_noop (x1 y1 x2 y2 : ℝ) (s : Sphere)
    (hx : x1 ≠ x2) (hy : y1 ≠ y2) :
    (Wall.mk x1 y1 x2 y2).check_collision s = s := by
  simp only [Wall.check_collision]
  rw [if_neg hx, if_neg hy]

/-- Witness for C10: the diagonal wall from (0,0) to (1,1) leaves a concrete
sphere unchanged. -/
theorem diagonal_wall_check_is_noop_witness :
    (Wall.mk 0 0 1 1).check_collision
        (Sphere.init 3 4 1 1 2 ⟨"", ""⟩ none 0.001)
      = Sphere.init 3 4 1 1 2 ⟨"", ""⟩ none 0.001 :=
  diagonal_wall_check_is_noop 0 0 1 1
    (Sphere.init 3 4 1 1 2 ⟨"", ""⟩ none 0.001)
    (by norm_num) (by norm_num)

lemma wall_check_cases (w : Wall) (s : Sphere) :
    w.check_collision s = s
    ∨ (w.x1 = w.x2
        ∧ (w.x1 - s.radius < s.x ∧ s.x < w.x1 + s.radius)
        ∧ ((w.y1 < s.y ∧ s.y < w.y2) ∨ (w.y2 < s.y ∧ s.y < w.y1))
        ∧ ((s.x < w.x1 ∧ 0 < s.vx) ∨ (w.x1 < s.x ∧ s.vx < 0))
        ∧ w.check_collision s = { s with vx := -s.vx })
    ∨ (w.y1 = w.y2
        ∧ (w.y1 - s.radius < s.y ∧ s.y < w.y1 + s.radius)
        ∧ ((w.x1 < s.x ∧ s.x < w.x2) ∨ (w.x2 < s.x ∧ s.x < w.x1))
        ∧ ((s.y < w.y1 ∧ 0 < s.vy) ∨ (w.y1 < s.y ∧ s.vy < 0))
        ∧ w.check_collision s = { s with vy := -s.vy }) := by
  unfold Wall.check_collision
  split_ifs with h1 h2 h3 h4 h5 h6 h7 h8 h9 h10
  · exact Or.inr (Or.inl ⟨h1, h2, h3, Or.inl h4, rfl⟩)
  · exact Or.inr (Or.inl ⟨h1, h2, h3, Or.inr h5, rfl⟩)
  · exact Or.inl rfl
  · exact Or.inl rfl
  · exact Or.inl rfl
  · exact Or.inr (Or.inr ⟨h6, h7, h8, Or.inl h9, rfl⟩)
  · exact Or.inr (Or.inr ⟨h6, h7, h8, Or.inr h10, rfl⟩)
  · exact Or.inl rfl
  · exact Or.inl rfl
  · exact Or.inl rfl
  · exact Or.inl rfl

lemma wall_vertical_flip (w : Wall) (s : Sphere)
    (hv : w.x1 = w.x2)
    (hovl : w.x1 - s.radius < s.x ∧ s.x < w.x1 + s.radius)
    (hbet : (w.y1 < s.y ∧ s.y < w.y2) ∨ (w.y2 < s.y ∧ s.y < w.y1))
    (htow : (s.x < w.x1 ∧ 0 < s.vx) ∨ (w.x1 < s.x ∧ s.vx < 0)) :
    w.check_collision s = { s with vx := -s.vx } := by
  unfold Wall.check_collision
  rw [if_pos hv, if_pos hovl, if_pos hbet]
  rcases htow with h | h
  · rw [if_pos h]
  · rw [if_neg (fun hc => absurd hc.1 (not_lt.mpr h.1.le)), if_pos h]

lemma wall_horizontal_flip (w : Wall) (s : Sphere)
    (hh : w.y1 = w.y2)
    (hovl : w.y1 - s.radius < s.y ∧ s.y < w.y1 + s.radius)
    (hbet : (w.x1 < s.x ∧ s.x < w.x2) ∨ (w.x2 < s.x ∧ s.x < w.x1))
    (htow : (s.y < w.y1 ∧ 0 < s.vy) ∨ (w.y1 < s.y ∧ s.vy < 0)) :
    w.check_collision s = { s with vy := -s.vy } := by
  have hne : ¬w.x1 = w.x2 := by
    rcases hbet with ⟨hb1, hb2⟩ | ⟨hb1, hb2⟩
    · exact ne_of_lt (hb1.trans hb2)
    · exact ne_of_gt (hb1.trans hb2)
  unfold Wall.check_collision
  rw [if_neg hne, if_pos hh, if_pos hovl, if_pos hbet]
  rcases htow with h | h
  · rw [if_pos h]
  · rw [if_neg (fun hc => absurd hc.1 (not_lt.mpr h.1.le)), if_pos h]

/-- Claim C8: a single wall check either leaves the sphere unchanged or
negates exactly the velocity component perpendicular to the wall; the
negation happens whenever the sphere's extent overlaps the wall line, its
center is strictly between the endpoints, and it moves toward the wall from
its current side; and an immediately repeated check on the same wall and
sphere changes nothing — the perpendicular velocity is never flipped twice. -/
theorem wall_reflects_perpendicular_once (w : Wall) (s : Sphere) :
    (w.check_collision s = s
      ∨ (w.x1 = w.x2 ∧ w.check_collision s = { s with vx := -s.vx })
      ∨ (w.y1 = w.y2 ∧ w.check_collision s = { s with vy := -s.vy }))
    ∧ (w.x1 = w.x2 → (w.x1 - s.radius < s.x ∧ s.x < w.x1 + s.radius) →
        ((w.y1 < s.y ∧ s.y < w.y2) ∨ (w.y2 < s.y ∧ s.y < w.y1)) →
        ((s.x < w.x1 ∧ 0 < s.vx) ∨ (w.x1 < s.x ∧ s.vx < 0)) →
        w.check_collision s = { s with vx := -s.vx })
    ∧ (w.y1 = w.y2 → (w.y1 - s.radius < s.y ∧ s.y < w.y1 + s.radius) →
        ((w.x1 < s.x ∧ s.x < w.x2) ∨ (w.x2 < s.x ∧ s.x < w.x1)) →
        ((s.y < w.y1 ∧ 0 < s.vy) ∨ (w.y1 < s.y ∧ s.vy < 0)) →
        w.check_collision s = { s with vy := -s.vy })
    ∧ w.check_collision (w.check_collision s) = w.check_collision s := by
  refine ⟨?_, wall_vertical_flip w s, wall_horizontal_flip w s, ?_⟩
  · rcases wall_check_cases w s with h | ⟨hv, _, _, _, h⟩ | ⟨hh, _, _, _, h⟩
    · exact Or.inl h
    · exact Or.inr (Or.inl ⟨hv, h⟩)
    · exact Or.inr (Or.inr ⟨hh, h⟩)
  · rcases wall_check_cases w s with h | ⟨hv, hovl, hbet, htow, h⟩ |
      ⟨hh, hovl, hbet, htow, h⟩
    · rw [h]
      exact h
    · rw [h]
      unfold Wall.check_collision
      rcases htow with ⟨hxl, hvx⟩ | ⟨hxr, hvx⟩
      · rw [if_pos hv, if_pos hovl, if_pos hbet,
          if_neg (fun hc => absurd (neg_pos.mp hc.2) (not_lt.mpr hvx.le)),
          if_neg (fun hc => absurd hc.1 (not_lt.mpr hxl.le))]
      · rw [if_pos hv, if_pos hovl, if_pos hbet,
          if_neg (fun hc => absurd hc.1 (not_lt.mpr hxr.le)),
          if_neg (fun hc => absurd (neg_lt_zero.mp hc.2) (not_lt.mpr hvx.le))]
    · rw [h]
      have hne : ¬w.x1 = w.x2 := by
        rcases hbet with ⟨hb1, hb2⟩ | ⟨hb1, hb2⟩
        · exact ne_of_lt (hb1.trans hb2)
        · exact ne_of_gt (hb1.trans hb2)
      unfold Wall.check_collision
      rcases htow with ⟨hyl, hvy⟩ | ⟨hyr, hvy⟩
      · rw [if_neg hne, if_pos hh, if_pos hovl, if_pos hbet,
          if_neg (fun hc => absurd (neg_pos.mp hc.2) (not_lt.mpr hvy.le)),
          if_neg (fun hc => absurd hc.1 (not_lt.mpr hyl.le))]
      · rw [if_neg hne, if_pos hh, if_pos hovl, if_pos hbet,
          if_neg (fun hc => absurd hc.1 (not_lt.mpr hyr.le)),
          if_neg (fun hc => absurd (neg_lt_zero.mp hc.2) (not_lt.mpr hvy.le))]

/-- Witness for C8: a sphere at x = −1 moving right (vx = 2) against the
vertical wall x = 0 between y = 0 and y = 100 gets vx negated, and a second
check on the result changes nothing. -/
theorem wall_reflects_perpendicular_once_witness :
    Wall.check_collision (Wall.mk 0 0 0 100)
        (Sphere.init (-1) 50 2 0 5 ⟨"", ""⟩ none 0.001)
      = { Sphere.init (-1) 50 2 0 5 ⟨"", ""⟩ none 0.001 with vx := -(2:ℝ) }
    ∧ Wall.check_collision (Wall.mk 0 0 0 100)
        (Wall.check_collision (Wall.mk 0 0 0 100)
          (Sphere.init (-1) 50 2 0 5 ⟨"", ""⟩ none 0.001))
      = Wall.check_collision (Wall.mk 0 0 0 100)
        (Sphere.init (-1) 50 2 0 5 ⟨"", ""⟩ none 0.001) := by
  have h := wall_reflects_perpendicular_once (Wall.mk 0 0 0 100)
    (Sphere.init (-1) 50 2 0 5 ⟨"", ""⟩ none 0.001)
  refine ⟨?_, h.2.2.2⟩
  have h2 := h.2.1 rfl (by norm_num [Sphere.init])
    (by norm_num [Sphere.init]) (by norm_num [Sphere.init])
  rw [h2]
  rfl

/-- Claim C1 (amended): for arena dimensions with width < 500 or height < 500
(the sentinel is the fixed point (−1000, −1000)), resolving two overlapping
mutual-partner chemical particles of distinct species whose total kinetic
energy reaches the initiator's activation energy turns exactly the initiator
into the terminal species `nitric_oxide` at the pair midpoint with halved
velocity and radius/mass recomputed from the new species, relocates the other
particle (species and velocity untouched) to (−1000, −1000), which is out of
bounds for the cull, so the end-of-tick cull of `update` removes it from any
live list. -/
theorem reaction_transforms_and_banishes (width height : ℝ) (a b : Sphere)
    (sa ob : Molecule)
    (ha : a.atom = some sa) (hb : b.atom = some ob) (hne : sa ≠ ob)
    (hpartner : sa.reaction_partner = some ob.name)
    (hke : sa.activation_energy ≤ total_kinetic_energy a b)
    (hov : center_distance a b < a.radius + b.radius)
    (harena : width < 500 ∨ height < 500) :
    ((ChemicalSphere.check_sphere_collision a b).1.atom = some nitric_oxide
      ∧ (ChemicalSphere.check_sphere_collision a b).1.x = (a.x + b.x) / 2
      ∧ (ChemicalSphere.check_sphere_collision a b).1.y = (a.y + b.y) / 2
      ∧ (ChemicalSphere.check_sphere_collision a b).1.vx = a.vx / 2
      ∧ (ChemicalSphere.check_sphere_collision a b).1.vy = a.vy / 2
      ∧ (ChemicalSphere.check_sphere_collision a b).1.radius
          = nitric_oxide.radius
      ∧ (ChemicalSphere.check_sphere_collision a b).1.mass
          = nitric_oxide.radius ^ 2)
    ∧ ((ChemicalSphere.check_sphere_collision a b).2.atom = some ob
      ∧ (ChemicalSphere.check_sphere_collision a b).2.vx = b.vx
      ∧ (ChemicalSphere.check_sphere_collision a b).2.vy = b.vy
      ∧ (ChemicalSphere.check_sphere_collision a b).2.x = -1000
      ∧ (ChemicalSphere.check_sphere_collision a b).2.y = -1000)
    ∧ out_of_bounds width height (ChemicalSphere.check_sphere_collision a b).2
    ∧ ∀ l : List Sphere,
        (ChemicalSphere.check_sphere_collision a b).2 ∉
          cull_out_of_bounds width height l := by
  have hr := chemical_reacts a b sa ob ha hb hne hpartner hke hov
  have habs : |(-1000:ℝ)| = 1000 := by norm_num
  have hout : out_of_bounds width height
      ({ b with x := -1000, y := -1000 } : Sphere) := by
    rcases harena with hw | hh2
    · left
      show |(-1000:ℝ)| > width * 2
      rw [habs]
      linarith
    · right
      show |(-1000:ℝ)| > height * 2
      rw [habs]
      linarith
  rw [hr]
  refine ⟨⟨rfl, rfl, rfl, rfl, rfl, rfl, rfl⟩, ⟨hb, rfl, rfl, rfl, rfl⟩,
    hout, ?_⟩
  intro l hmem
  rw [mem_cull_out_of_bounds] at hmem
  exact hmem.2 hout

/-- Witness for C1 (amended): in a 100×100 arena, a fast oxygen initiator
reacting with an overlapping nitrogen partner becomes nitric oxide, and the
banished partner does not survive the cull. -/
theorem reaction_transforms_and_banishes_witness :
    (ChemicalSphere.check_sphere_collision
        (ChemicalSphere.init 0 0 2 0 oxygen 0.001)
        (ChemicalSphere.init 1 0 0 0 nitrogen 0.001)).1.atom
      = some nitric_oxide
    ∧ (ChemicalSphere.check_sphere_collision
        (ChemicalSphere.init 0 0 2 0 oxygen 0.001)
        (ChemicalSphere.init 1 0 0 0 nitrogen 0.001)).2 ∉
        cull_out_of_bounds 100 100
          [(ChemicalSphere.check_sphere_collision
              (ChemicalSphere.init 0 0 2 0 oxygen 0.001)
              (ChemicalSphere.init 1 0 0 0 nitrogen 0.001)).2] := by
  have h := reaction_transforms_and_banishes 100 100
    (ChemicalSphere.init 0 0 2 0 oxygen 0.001)
    (ChemicalSphere.init 1 0 0 0 nitrogen 0.001) oxygen nitrogen rfl rfl
    oxygen_ne_nitrogen rfl
    (by norm_num [total_kinetic_energy, ChemicalSphere.init, Sphere.init,
      oxygen, nitrogen])
    (by norm_num [center_distance, ChemicalSphere.init, Sphere.init, oxygen,
      nitrogen, Real.sqrt_one])
    (Or.inl (by norm_num))
  exact ⟨h.1.1, h.2.2.2 _⟩

/-- Counterexample for C1 as stated ("for every arena width and height"): in
a 500×500 arena the banished partner sits at (−1000, −1000), which does not
satisfy |x| > 2·width or |y| > 2·height (1000 is not > 1000), so the cull
keeps it in the live set. -/
theorem reaction_sentinel_survives_cull_at_500 :
    (ChemicalSphere.check_sphere_collision
        (ChemicalSphere.init 0 0 4 0 oxygen 0.001)
        (ChemicalSphere.init 1 0 0 0 nitrogen 0.001)).2.x = -1000
    ∧ (ChemicalSphere.check_sphere_collision
        (ChemicalSphere.init 0 0 4 0 oxygen 0.001)
        (ChemicalSphere.init 1 0 0 0 nitrogen 0.001)).2.y = -1000
    ∧ ¬out_of_bounds 500 500
        (ChemicalSphere.check_sphere_collision
          (ChemicalSphere.init 0 0 4 0 oxygen 0.001)
          (ChemicalSphere.init 1 0 0 0 nitrogen 0.001)).2
    ∧ (ChemicalSphere.check_sphere_collision
        (ChemicalSphere.init 0 0 4 0 oxygen 0.001)
        (ChemicalSphere.init 1 0 0 0 nitrogen 0.001)).2 ∈
        cull_out_of_bounds 500 500
          [(ChemicalSphere.check_sphere_collision
              (ChemicalSphere.init 0 0 4 0 oxygen 0.001)
              (ChemicalSphere.init 1 0 0 0 nitrogen 0.001)).2] := by
  have hr := chemical_reacts (ChemicalSphere.init 0 0 4 0 oxygen 0.001)
    (ChemicalSphere.init 1 0 0 0 nitrogen 0.001) oxygen nitrogen rfl rfl
    oxygen_ne_nitrogen rfl
    (by norm_num [total_kinetic_energy, ChemicalSphere.init, Sphere.init,
      oxygen, nitrogen])
    (by norm_num [center_distance, ChemicalSphere.init, Sphere.init, oxygen,
      nitrogen, Real.sqrt_one])
  have hno : ¬out_of_bounds 500 500
      ({ ChemicalSphere.init 1 0 0 0 nitrogen 0.001 with
          x := -1000, y := -1000 } : Sphere) := by
    unfold out_of_bounds
    push_neg
    constructor
    · show |(-1000:ℝ)| ≤ 500 * 2
      norm_num
    · show |(-1000:ℝ)| ≤ 500 * 2
      norm_num
  rw [hr]
  refine ⟨rfl, rfl, hno, ?_⟩
  rw [mem_cull_out_of_bounds]
  exact ⟨List.mem_singleton.mpr rfl, hno⟩

/-- Claim C7, the code evaluated at the failing input: the source has no
guard for a zero center distance.  Resolving two exactly coincident spheres
leaves both positions and both velocities unchanged in this exact-real model
(the source's floats would instead propagate NaN from `dx/0`), so no nominal
minimum separation is produced and the pair stays at center distance 0. -/
theorem coincident_pair_divide_unguarded :
    (Sphere.check_sphere_collision
        (Sphere.init 0 0 3 4 1 ⟨"", ""⟩ none 0.001)
        (Sphere.init 0 0 0 0 1 ⟨"", ""⟩ none 0.001)).1.x = 0
    ∧ (Sphere.check_sphere_collision
        (Sphere.init 0 0 3 4 1 ⟨"", ""⟩ none 0.001)
        (Sphere.init 0 0 0 0 1 ⟨"", ""⟩ none 0.001)).1.vx = 3
    ∧ (Sphere.check_sphere_collision
        (Sphere.init 0 0 3 4 1 ⟨"", ""⟩ none 0.001)
        (Sphere.init 0 0 0 0 1 ⟨"", ""⟩ none 0.001)).1.vy = 4
    ∧ (Sphere.check_sphere_collision
        (Sphere.init 0 0 3 4 1 ⟨"", ""⟩ none 0.001)
        (Sphere.init 0 0 0 0 1 ⟨"", ""⟩ none 0.001)).2.x = 0
    ∧ center_distance
        (Sphere.check_sphere_collision
          (Sphere.init 0 0 3 4 1 ⟨"", ""⟩ none 0.001)
          (Sphere.init 0 0 0 0 1 ⟨"", ""⟩ none 0.001)).1
        (Sphere.check_sphere_collision
          (Sphere.init 0 0 3 4 1 ⟨"", ""⟩ none 0.001)
          (Sphere.init 0 0 0 0 1 ⟨"", ""⟩ none 0.001)).2
      = 0 := by
  have h0 : center_distance (Sphere.init 0 0 3 4 1 ⟨"", ""⟩ none 0.001)
      (Sphere.init 0 0 0 0 1 ⟨"", ""⟩ none 0.001) = 0 := by
    norm_num [center_distance, Sphere.init, Real.sqrt_zero]
  have hov : center_distance (Sphere.init 0 0 3 4 1 ⟨"", ""⟩ none 0.001)
      (Sphere.init 0 0 0 0 1 ⟨"", ""⟩ none 0.001) <
      (Sphere.init 0 0 3 4 1 ⟨"", ""⟩ none 0.001).radius +
        (Sphere.init 0 0 0 0 1 ⟨"", ""⟩ none 0.001).radius := by
    rw [h0]
    norm_num [Sphere.init]
  have hnx : normal_x (Sphere.init 0 0 3 4 1 ⟨"", ""⟩ none 0.001)
      (Sphere.init 0 0 0 0 1 ⟨"", ""⟩ none 0.001) = 0 := by
    rw [normal_x, h0, div_zero]
  have hny : normal_y (Sphere.init 0 0 3 4 1 ⟨"", ""⟩ none 0.001)
      (Sphere.init 0 0 0 0 1 ⟨"", ""⟩ none 0.001) = 0 := by
    rw [normal_y, h0, div_zero]
  rw [elastic_overlap_eq _ _ hov]
  dsimp only
  rw [hnx, hny, center_distance]
  norm_num [Sphere.init, Real.sqrt_zero]
